import Mathlib

/-!
Verification of the calculator program in `calculator.c`.

The program reads one line of input, validates it (`is_valid_input` and its
sub-checks), and evaluates it with a recursive-descent parser
(`expression` / `term` / `factor`) that dispatches named math functions
through a 68-entry alias table (`math_functions`, `call_function`).

Modelling choices:
  - the input line is a `List Char`; the C string terminator is modelled by
    the end of the list, and reading past it yields `'\x00'`;
  - the shared cursor/token pair (`const char** str`, `char* token`) is the
    state `St`;
  - `double` values are idealised as `ℚ`; the transcendental library
    functions (`sqrt`, `sin`, `pow`, ...) are parameters collected in a
    `MathFns` structure, while operations that are exact on rationals
    (`floor`, `ceil`, `trunc`, `fabs`, comparisons, field arithmetic) are
    modelled concretely;
  - `error_handler` exits the process; this is modelled by the `Out.err`
    result which aborts the whole evaluation;
  - the mutually recursive parser is given explicit fuel; `Out.spin` marks
    fuel exhaustion and never occurs for sufficiently large fuel, except
    where the C program itself fails to terminate (the `int16_t` loop
    counter in `fact_s`, modelled exactly by `factLoop` and `wrap16`).
-/

namespace Calculator

/-- Error codes of `error_code_t` in calculator.c. -/
inductive error_code_t where
  | failedToAllocateMemory
  | invalidInput
  | undefinedFunction
  | unknown
deriving DecidableEq, Repr

/-- Parser state: the remainder of the input string (`*str`) and the current
token (`*token`). -/
structure St where
  rest : List Char
  tok : Char
deriving DecidableEq, Repr

/-- Result of evaluating a piece of input: a value together with the state
after it, a fatal error (the C program calls `error_handler` and exits), or
fuel exhaustion. -/
inductive Out (α : Type) where
  | ok (val : α) (st : St)
  | err (e : error_code_t)
  | spin
deriving DecidableEq, Repr

def Out.bind {α β : Type} (o : Out α) (f : α → St → Out β) : Out β :=
  match o with
  | .ok v st => f v st
  | .err e => .err e
  | .spin => .spin

/-- `get_token`: skip spaces, return the next character and advance.  At the
end of the input the C code reads the `'\0'` terminator. -/
def getTokenList : List Char → Char × List Char
  | [] => ('\x00', [])
  | c :: cs => if c = ' ' then getTokenList cs else (c, cs)

/-- `get_token(str, token)` acting on the parser state. -/
def getToken (st : St) : St :=
  let p := getTokenList st.rest
  ⟨p.2, p.1⟩

/-- The 68-entry alias table built by `init_math_functions`, in the exact
order of the C source (the list index is the `math_functions` index). -/
def math_functions : List (List Char) :=
  [ "sqrt",     -- 0
    "ln",       -- 1
    "exp",      -- 2
    "sin",      -- 3
    "cos",      -- 4
    "tan",      -- 5
    "tg",       -- 6
    "ctan",     -- 7
    "ctg",      -- 8
    "cotan",    -- 9
    "cot",      -- 10
    "cotg",     -- 11
    "arcsin",   -- 12
    "asin",     -- 13
    "arccos",   -- 14
    "acos",     -- 15
    "arctan",   -- 16
    "arctg",    -- 17
    "atan",     -- 18
    "atg",      -- 19
    "arcctan",  -- 20
    "arcctg",   -- 21
    "arccotan", -- 22
    "arccot",   -- 23
    "arccotg",  -- 24
    "acotan",   -- 25
    "acot",     -- 26
    "acotg",    -- 27
    "sinh",     -- 28
    "sh",       -- 29
    "cosh",     -- 30
    "ch",       -- 31
    "tanh",     -- 32
    "tgh",      -- 33
    "th",       -- 34
    "ctanh",    -- 35
    "ctgh",     -- 36
    "coth",     -- 37
    "cth",      -- 38
    "arcsinh",  -- 39
    "arsinh",   -- 40
    "asinh",    -- 41
    "arcsh",    -- 42
    "arccosh",  -- 43
    "arcosh",   -- 44
    "acosh",    -- 45
    "arcch",    -- 46
    "arctanh",  -- 47
    "arctgh",   -- 48
    "arcth",    -- 49
    "artgh",    -- 50
    "atanh",    -- 51
    "arccoth",  -- 52
    "arccth",   -- 53
    "arcoth",   -- 54
    "abs",      -- 55
    "ceil",     -- 56
    "floor",    -- 57
    "round",    -- 58
    "trunc",    -- 59
    "sign",     -- 60
    "rad",      -- 61
    "deg",      -- 62
    "fact",     -- 63
    "log",      -- 64
    "lg",       -- 65
    "min",      -- 66
    "max"       -- 67
  ].map String.data

/-- `_stricmp(a, b) == 0`: case-insensitive string equality. -/
def eqIC (a b : List Char) : Bool :=
  a.map Char.toLower == b.map Char.toLower

/-- The linear scan in `call_function`: first matching index, or 68
(`MAX_FUNCTION_COUNT`) when no alias matches. -/
def findFuncIdx (func : List Char) : Nat :=
  (math_functions.findIdx? (fun f => eqIC func f)).getD 68

/-- Operator characters, the C pattern `"+-*\x2f:%^"`. -/
def opChars : List Char := ['+', '-', '*', '/', ':', '%', '^']

/-- The forbidden characters rejected by `is_valid_input`
(the C pattern containing `! " # $ % & ... \x7b \x7d` and the listed
control characters). -/
def forbiddenChars : List Char :=
  ['!', '\x22', '#', '$', '%', '&', '\x27', '\x60', '~', '\x5c', '|',
   '<', '>', '?', '_', '@', ';', '=', '[', ']', '\x7b', '\x7d',
   '\x09', '\x0b', '\x0c', '\x0d']

/-- Whether the two-character sequence `a` then `b` occurs in the string
(the `strstr(str, "..") != NULL` pattern). -/
def containsPair (a b : Char) : List Char → Bool
  | [] => false
  | [_] => false
  | x :: y :: rest => (x = a ∧ y = b) || containsPair a b (y :: rest)

/-- The adjacent-character blacklist of `is_valid_input`, in source order. -/
def pairBlacklist : List (Char × Char) :=
  [('.', '.'), ('.', '+'), ('.', '-'), ('.', '*'), ('.', '/'),
   ('.', ':'), ('.', '%'), ('.', '^'), ('.', '('), ('.', ')'),
   ('.', ','), ('.', ' '), ('+', '.'), ('+', '*'), ('+', '/'),
   ('+', ':'), ('+', '%'), ('+', '^'), ('+', ')'), ('+', ','),
   ('-', '.'), ('-', '*'), ('-', '/'), ('-', ':'), ('-', '%'),
   ('-', '^'), ('-', ')'), ('-', ','), ('*', '.'), ('*', '+'),
   ('*', '/'), ('*', ':'), ('*', '%'), ('*', '^'), ('*', ')'),
   ('*', ','), ('/', '.'), ('/', '+'), ('/', '*'), ('/', ':'),
   ('/', '%'), ('/', '^'), ('/', ')'), ('/', ','), (':', '.'),
   (':', '+'), (':', '*'), (':', '/'), (':', '%'), (':', '^'),
   (':', ')'), (':', ','), ('%', '.'), ('%', '+'), ('%', '-'),
   ('%', '*'), ('%', '/'), ('%', ':'), ('%', '^'), ('%', ')'),
   ('%', ','), ('^', '.'), ('^', '+'), ('^', '-'), ('^', '*'),
   ('^', '/'), ('^', ':'), ('^', '%'), ('^', ')'), ('^', ','),
   ('(', '.'), ('(', '+'), ('(', '*'), ('(', '/'), ('(', ':'),
   ('(', '%'), ('(', '^'), ('(', ','), ('(', ')'), (' ', ' ')]

/-- Loop of `is_valid_parenthesis`: remaining characters, previous
character (`str[i-1]`, `'\x00'` before the start), and the stack. -/
def ivParenGo : List Char → Char → List Char → Bool
  | [], _, stack => stack.isEmpty
  | c :: rest, prev, stack =>
    if c = '(' then
      if prev.isDigit ∧ (rest.getD 0 '\x00').isDigit then false
      else ivParenGo rest c ('(' :: stack)
    else if c = ')' then
      match stack with
      | [] => false
      | last :: stack2 => if last ≠ '(' then false else ivParenGo rest c stack2
    else ivParenGo rest c stack

/-- `is_valid_parenthesis` from calculator.c. -/
def is_valid_parenthesis (s : List Char) : Bool :=
  ivParenGo s '\x00' []

/-- Loop of `is_valid_point` starting at index 1: remaining characters,
previous character, and the `active_point` flag. -/
def ivPointGo : List Char → Char → Bool → Bool
  | [], _, _ => true
  | c :: rest, prev, active =>
    if c = '.' ∧ active then false
    else if c = '.' ∧ ¬active then
      if ¬prev.isDigit ∨ ¬(rest.getD 0 '\x00').isDigit then false
      else ivPointGo rest c true
    else if c ∈ opChars then ivPointGo rest c false
    else ivPointGo rest c active

/-- `is_valid_point` from calculator.c (its loop starts at index 1). -/
def is_valid_point (s : List Char) : Bool :=
  match s with
  | [] => true
  | c :: rest => ivPointGo rest c false

/-- Loop of `is_valid_space` starting at index 1. -/
def ivSpaceGo : List Char → Char → Bool
  | [], _ => true
  | c :: rest, prev =>
    if c = ' ' ∧ prev.isDigit ∧ (rest.getD 0 '\x00').isDigit then false
    else ivSpaceGo rest c

/-- `is_valid_space` from calculator.c. -/
def is_valid_space (s : List Char) : Bool :=
  match s with
  | [] => true
  | c :: rest => ivSpaceGo rest c

/-- Loop of `has_random_letters`: `pending` is the current alphabetic run
(`sub_string`), `compared` is the `has_been_compared` flag.  The C condition
`*sub_string != '\0'` is equivalent to `pending ≠ []` whenever
`has_been_compared` is 0 (the stale buffer is only nonempty after some run
was accumulated, and the length index is reset exactly when `compared`
becomes 1). -/
def hrlGo : List Char → List Char → Bool → Bool
  | [], _, _ => false
  | c :: rest, pending, compared =>
    if c.isAlpha then hrlGo rest (pending ++ [c]) false
    else if ¬compared ∧ pending ≠ [] then
      if math_functions.any (fun f => eqIC pending f) ∧ c = '(' then
        hrlGo rest [] true
      else true
    else hrlGo rest pending compared

/-- `has_random_letters` from calculator.c: true when the input contains an
alphabetic run that is not a registered function alias immediately followed
by `'('`. -/
def has_random_letters (s : List Char) : Bool :=
  hrlGo s [] false

/-- `is_valid_input` from calculator.c: the full validation pipeline, with
the checks in source order. -/
def is_valid_input (s : List Char) : Bool :=
  let length := s.length
  if s.getD 0 '\x00' = '\n' then true
  else if length = 99 ∧ s.getD 98 '\x00' ≠ '\n' then false
  else if s.getD 0 '\x00' = ' ' then false
  else if s.getD 0 '\x00' ∈ ['.', '*', '/', ':', '%', '^', ')']
       ∨ s.getD (length - 2) '\x00' ∈ ['.', '+', '*', '/', ':', '%', '^', '('] then false
  else if s.any (forbiddenChars.contains ·) then false
  else if s.any Char.isDigit && !(s.any (opChars.contains ·)) && !(s.any Char.isAlpha) then false
  else if s.any (opChars.contains ·) && !(s.any Char.isDigit) then false
  else if s.any Char.isAlpha && !(s.any Char.isDigit) then false
  else if s.any (fun c => c = '(' ∨ c = ')') && !(s.any Char.isDigit) && !(s.any Char.isAlpha) then false
  else if pairBlacklist.any (fun p => containsPair p.1 p.2 s) then false
  else if !is_valid_parenthesis s then false
  else if !is_valid_point s then false
  else if !is_valid_space s then false
  else if has_random_letters s then false
  else true

/-- Digit accumulation, most significant first. -/
def digitsVal : List Char → Nat → Nat
  | [], acc => acc
  | c :: cs, acc => digitsVal cs (acc * 10 + (c.toNat - 48))

/-- `strtod` on the scanned numeral (digits with at most one decimal point),
idealised to an exact rational. -/
def strtodQ (cs : List Char) : ℚ :=
  let intPart := cs.takeWhile Char.isDigit
  let rest := cs.dropWhile Char.isDigit
  let fracPart := match rest with
    | '.' :: fs => fs.takeWhile Char.isDigit
    | _ => []
  (digitsVal intPart 0 : ℚ) + (digitsVal fracPart 0 : ℚ) / (10 : ℚ) ^ fracPart.length

/-- The numeral-scanning loop of `factor`: collect characters while the
token is a digit, or a decimal point when none was seen yet. -/
def scanNum : Nat → St → Bool → List Char → Option (List Char × St)
  | 0, _, _, _ => none
  | fuel + 1, st, hasPoint, acc =>
    if st.tok.isDigit ∨ (¬hasPoint ∧ st.tok = '.') then
      scanNum fuel (getToken st) (hasPoint ∨ st.tok = '.') (acc ++ [st.tok])
    else some (acc, st)

/-- The function-name-scanning loop of `factor`: collect characters while
the token is alphabetic. -/
def scanAlpha : Nat → St → List Char → Option (List Char × St)
  | 0, _, _ => none
  | fuel + 1, st, acc =>
    if st.tok.isAlpha then scanAlpha fuel (getToken st) (acc ++ [st.tok])
    else some (acc, st)

/-- The transcendental C library functions used by the calculator, kept
abstract over the idealised number type `ℚ` (`M_PI` likewise). -/
structure MathFns where
  sqrt : ℚ → ℚ
  sin : ℚ → ℚ
  cos : ℚ → ℚ
  tan : ℚ → ℚ
  asin : ℚ → ℚ
  acos : ℚ → ℚ
  atan : ℚ → ℚ
  sinh : ℚ → ℚ
  cosh : ℚ → ℚ
  tanh : ℚ → ℚ
  asinh : ℚ → ℚ
  acosh : ℚ → ℚ
  atanh : ℚ → ℚ
  exp : ℚ → ℚ
  log : ℚ → ℚ
  log10 : ℚ → ℚ
  pow : ℚ → ℚ → ℚ
  fmod : ℚ → ℚ → ℚ
  pi : ℚ

/-- C `floor` on the idealised values. -/
def cfloor (r : ℚ) : ℚ := (⌊r⌋ : ℚ)

/-- C `ceil` on the idealised values. -/
def cceil (r : ℚ) : ℚ := (⌈r⌉ : ℚ)

/-- C `trunc`: round toward zero. -/
def ctrunc (r : ℚ) : ℚ := if 0 ≤ r then cfloor r else cceil r

/-- C `round`: round half away from zero. -/
def cround (r : ℚ) : ℚ := if 0 ≤ r then cfloor (r + 1/2) else cceil (r - 1/2)

/-- Two's-complement wrap-around of an `int16_t` increment (the loop counter
`i` in `fact_s`). -/
def wrap16 (n : Int) : Int := (n + 32768) % 65536 - 32768

/-- The factorial accumulation loop of `fact_s`:
`for (int16_t i = 1; i <= fact; ++i) result *= i;`
with explicit fuel (one unit per guard evaluation); `none` means the fuel
ran out before the guard failed. -/
def factLoop (fact : ℚ) : Nat → Int → ℚ → Option ℚ
  | 0, _, _ => none
  | fuel + 1, i, result =>
    if (i : ℚ) ≤ fact then factLoop fact fuel (wrap16 (i + 1)) (result * (i : ℚ))
    else some result

/-- The loop of `fact_s` terminates on argument `x` (starting from `i = 1`,
`result = 1` as in the C source). -/
def factLoopTerminates (x : ℚ) : Prop := ∃ fuel r, factLoop x fuel 1 1 = some r

/-- Product of the `k` consecutive integers `i, i+1, ..., i+k-1`, the value
accumulated by the remaining iterations of the `fact_s` loop. -/
def upProd (i : Int) : Nat → ℚ
  | 0 => 1
  | k + 1 => (i : ℚ) * upProd (i + 1) k

mutual

/-- `expression` from calculator.c: left fold of `term` over `+` and `-`. -/
def expression (F : MathFns) (fuel : Nat) (st : St) : Out ℚ :=
  match fuel with
  | 0 => .spin
  | fuel + 1 => (term F fuel st).bind fun result st1 => exprLoop F fuel result st1

/-- The `while (*token == '+' || *token == '-')` loop of `expression`. -/
def exprLoop (F : MathFns) (fuel : Nat) (result : ℚ) (st : St) : Out ℚ :=
  match fuel with
  | 0 => .spin
  | fuel + 1 =>
    if st.tok = '+' ∨ st.tok = '-' then
      let op := st.tok
      (term F fuel (getToken st)).bind fun right st1 =>
        exprLoop F fuel (if op = '+' then result + right else result - right) st1
    else .ok result st

/-- `term` from calculator.c: left fold of `factor` over `*`, `/`, `:`,
`%`, `^`. -/
def term (F : MathFns) (fuel : Nat) (st : St) : Out ℚ :=
  match fuel with
  | 0 => .spin
  | fuel + 1 => (factor F fuel st).bind fun result st1 => termLoop F fuel result st1

/-- The operator loop of `term`; `:` is division, `%` is `fmod`, `^` is
`pow`, all applied left-to-right. -/
def termLoop (F : MathFns) (fuel : Nat) (result : ℚ) (st : St) : Out ℚ :=
  match fuel with
  | 0 => .spin
  | fuel + 1 =>
    if st.tok = '*' ∨ st.tok = '/' ∨ st.tok = ':' ∨ st.tok = '%' ∨ st.tok = '^' then
      let op := st.tok
      (factor F fuel (getToken st)).bind fun right st1 =>
        termLoop F fuel
          (if op = '*' then result * right
           else if op = '/' ∨ op = ':' then result / right
           else if op = '%' then F.fmod result right
           else F.pow result right) st1
    else .ok result st

/-- `factor` from calculator.c: optional unary minus, then a parenthesised
expression, a numeric literal, a function call, or (for any other token)
nothing at all, leaving `result = 0`. -/
def factor (F : MathFns) (fuel : Nat) (st : St) : Out ℚ :=
  match fuel with
  | 0 => .spin
  | fuel + 1 =>
    let p : ℚ × St := if st.tok = '-' then (-1, getToken st) else (1, st)
    let sign := p.1
    let st0 := p.2
    if st0.tok = '(' then
      (expression F fuel (getToken st0)).bind fun result st1 => .ok (sign * result) (getToken st1)
    else if st0.tok.isDigit ∨ st0.tok = '.' then
      match scanNum fuel st0 false [] with
      | none => .spin
      | some (number, st1) => .ok (sign * strtodQ number) st1
    else if st0.tok.isAlpha then
      match scanAlpha fuel st0 [] with
      | none => .spin
      | some (func, st1) =>
        (call_function F fuel func (getToken st1)).bind fun result st2 =>
          .ok (sign * result) (getToken st2)
    else .ok (sign * 0) st0

/-- `call_function` from calculator.c: resolve the scanned name in the alias
table and dispatch through the `switch` on the index, with the exact case
grouping of the source. -/
def call_function (F : MathFns) (fuel : Nat) (func : List Char) (st : St) : Out ℚ :=
  match fuel with
  | 0 => .spin
  | fuel + 1 =>
    match findFuncIdx func with
    | 0 => sqrt_s F fuel st
    | 1 => ln_s F fuel st
    | 2 => exp_s F fuel st
    | 3 => sin_s F fuel st
    | 4 => cos_s F fuel st
    | 5 => tan_s F fuel st
    | 6 => ctan_s F fuel st
    | 7 | 8 | 9 | 10 | 11 => asin_s F fuel st
    | 12 | 13 | 14 | 15 => acos_s F fuel st
    | 16 | 17 | 18 | 19 | 20 | 21 => atan_s F fuel st
    | 22 | 23 | 24 | 25 | 26 | 27 => actan_s F fuel st
    | 28 | 29 => sinh_s F fuel st
    | 30 | 31 => cosh_s F fuel st
    | 32 | 33 | 34 => tanh_s F fuel st
    | 35 | 36 | 37 | 38 => ctanh_s F fuel st
    | 39 | 40 | 41 => asinh_s F fuel st
    | 42 | 43 | 44 | 45 | 46 => acosh_s F fuel st
    | 47 | 48 | 49 | 50 | 51 => atanh_s F fuel st
    | 52 | 53 | 54 => actanh_s F fuel st
    | 55 => fabs_s F fuel st
    | 56 => ceil_s F fuel st
    | 57 => floor_s F fuel st
    | 58 => round_s F fuel st
    | 59 => trunc_s F fuel st
    | 60 => sign_s F fuel st
    | 61 => rad_s F fuel st
    | 62 => deg_s F fuel st
    | 63 => fact_s F fuel st
    | 64 => log_s F fuel st
    | 65 => log10_s F fuel st
    | 66 => min_s F fuel st
    | 67 => max_s F fuel st
    | _ => .err .unknown

/-- `sqrt_s`: square root, undefined below 0. -/
def sqrt_s (F : MathFns) (fuel : Nat) (st : St) : Out ℚ :=
  match fuel with
  | 0 => .spin
  | fuel + 1 =>
    (expression F fuel st).bind fun result st1 =>
      if result ≥ 0 then .ok (F.sqrt result) st1 else .err .undefinedFunction

/-- `sin_s`. -/
def sin_s (F : MathFns) (fuel : Nat) (st : St) : Out ℚ :=
  match fuel with
  | 0 => .spin
  | fuel + 1 => (expression F fuel st).bind fun result st1 => .ok (F.sin result) st1

/-- `cos_s`. -/
def cos_s (F : MathFns) (fuel : Nat) (st : St) : Out ℚ :=
  match fuel with
  | 0 => .spin
  | fuel + 1 => (expression F fuel st).bind fun result st1 => .ok (F.cos result) st1

/-- `tan_s`: tangent, undefined when `cos` of the argument is 0. -/
def tan_s (F : MathFns) (fuel : Nat) (st : St) : Out ℚ :=
  match fuel with
  | 0 => .spin
  | fuel + 1 =>
    (expression F fuel st).bind fun result st1 =>
      if F.cos result ≠ 0 then .ok (F.tan result) st1 else .err .undefinedFunction

/-- `ctan_s`: cotangent computed as `1 / tan`, undefined when `sin` of the
argument is 0 (the C condition `if (sin(result))`). -/
def ctan_s (F : MathFns) (fuel : Nat) (st : St) : Out ℚ :=
  match fuel with
  | 0 => .spin
  | fuel + 1 =>
    (expression F fuel st).bind fun result st1 =>
      if F.sin result ≠ 0 then .ok (1 / F.tan result) st1 else .err .undefinedFunction

/-- `asin_s`: arcsine, defined on `[-1, 1]`. -/
def asin_s (F : MathFns) (fuel : Nat) (st : St) : Out ℚ :=
  match fuel with
  | 0 => .spin
  | fuel + 1 =>
    (expression F fuel st).bind fun result st1 =>
      if result ≥ -1 ∧ result ≤ 1 then .ok (F.asin result) st1 else .err .undefinedFunction

/-- `acos_s`: arccosine, defined on `[-1, 1]`. -/
def acos_s (F : MathFns) (fuel : Nat) (st : St) : Out ℚ :=
  match fuel with
  | 0 => .spin
  | fuel + 1 =>
    (expression F fuel st).bind fun result st1 =>
      if result ≥ -1 ∧ result ≤ 1 then .ok (F.acos result) st1 else .err .undefinedFunction

/-- `atan_s`. -/
def atan_s (F : MathFns) (fuel : Nat) (st : St) : Out ℚ :=
  match fuel with
  | 0 => .spin
  | fuel + 1 => (expression F fuel st).bind fun result st1 => .ok (F.atan result) st1

/-- `actan_s`: arccotangent as `M_PI / 2 - atan`. -/
def actan_s (F : MathFns) (fuel : Nat) (st : St) : Out ℚ :=
  match fuel with
  | 0 => .spin
  | fuel + 1 => (expression F fuel st).bind fun result st1 => .ok (F.pi / 2 - F.atan result) st1

/-- `sinh_s`. -/
def sinh_s (F : MathFns) (fuel : Nat) (st : St) : Out ℚ :=
  match fuel with
  | 0 => .spin
  | fuel + 1 => (expression F fuel st).bind fun result st1 => .ok (F.sinh result) st1

/-- `cosh_s`. -/
def cosh_s (F : MathFns) (fuel : Nat) (st : St) : Out ℚ :=
  match fuel with
  | 0 => .spin
  | fuel + 1 => (expression F fuel st).bind fun result st1 => .ok (F.cosh result) st1

/-- `tanh_s`. -/
def tanh_s (F : MathFns) (fuel : Nat) (st : St) : Out ℚ :=
  match fuel with
  | 0 => .spin
  | fuel + 1 => (expression F fuel st).bind fun result st1 => .ok (F.tanh result) st1

/-- `ctanh_s`: hyperbolic cotangent as `1 / tanh`, undefined when `tanh` is
0. -/
def ctanh_s (F : MathFns) (fuel : Nat) (st : St) : Out ℚ :=
  match fuel with
  | 0 => .spin
  | fuel + 1 =>
    (expression F fuel st).bind fun result st1 =>
      if F.tanh result ≠ 0 then .ok (1 / F.tanh result) st1 else .err .undefinedFunction

/-- `asinh_s`. -/
def asinh_s (F : MathFns) (fuel : Nat) (st : St) : Out ℚ :=
  match fuel with
  | 0 => .spin
  | fuel + 1 => (expression F fuel st).bind fun result st1 => .ok (F.asinh result) st1

/-- `acosh_s`: defined for arguments at least 1. -/
def acosh_s (F : MathFns) (fuel : Nat) (st : St) : Out ℚ :=
  match fuel with
  | 0 => .spin
  | fuel + 1 =>
    (expression F fuel st).bind fun result st1 =>
      if result ≥ 1 then .ok (F.acosh result) st1 else .err .undefinedFunction

/-- `atanh_s`: defined on the open interval `(-1, 1)`. -/
def atanh_s (F : MathFns) (fuel : Nat) (st : St) : Out ℚ :=
  match fuel with
  | 0 => .spin
  | fuel + 1 =>
    (expression F fuel st).bind fun result st1 =>
      if result > -1 ∧ result < 1 then .ok (F.atanh result) st1 else .err .undefinedFunction

/-- `actanh_s`: computed as `log((1 + x) / (1 - x)) / 2` on `(-1, 1)`. -/
def actanh_s (F : MathFns) (fuel : Nat) (st : St) : Out ℚ :=
  match fuel with
  | 0 => .spin
  | fuel + 1 =>
    (expression F fuel st).bind fun result st1 =>
      if result > -1 ∧ result < 1 then .ok (F.log ((1 + result) / (1 - result)) / 2) st1
      else .err .undefinedFunction

/-- `exp_s`. -/
def exp_s (F : MathFns) (fuel : Nat) (st : St) : Out ℚ :=
  match fuel with
  | 0 => .spin
  | fuel + 1 => (expression F fuel st).bind fun result st1 => .ok (F.exp result) st1

/-- `fabs_s`. -/
def fabs_s (F : MathFns) (fuel : Nat) (st : St) : Out ℚ :=
  match fuel with
  | 0 => .spin
  | fuel + 1 => (expression F fuel st).bind fun result st1 => .ok (abs result) st1

/-- `ceil_s`. -/
def ceil_s (F : MathFns) (fuel : Nat) (st : St) : Out ℚ :=
  match fuel with
  | 0 => .spin
  | fuel + 1 => (expression F fuel st).bind fun result st1 => .ok (cceil result) st1

/-- `floor_s`. -/
def floor_s (F : MathFns) (fuel : Nat) (st : St) : Out ℚ :=
  match fuel with
  | 0 => .spin
  | fuel + 1 => (expression F fuel st).bind fun result st1 => .ok (cfloor result) st1

/-- `round_s`. -/
def round_s (F : MathFns) (fuel : Nat) (st : St) : Out ℚ :=
  match fuel with
  | 0 => .spin
  | fuel + 1 => (expression F fuel st).bind fun result st1 => .ok (cround result) st1

/-- `trunc_s`. -/
def trunc_s (F : MathFns) (fuel : Nat) (st : St) : Out ℚ :=
  match fuel with
  | 0 => .spin
  | fuel + 1 => (expression F fuel st).bind fun result st1 => .ok (ctrunc result) st1

/-- `sign_s`: 1, -1 or 0. -/
def sign_s (F : MathFns) (fuel : Nat) (st : St) : Out ℚ :=
  match fuel with
  | 0 => .spin
  | fuel + 1 =>
    (expression F fuel st).bind fun result st1 =>
      if result > 0 then .ok 1 st1 else if result < 0 then .ok (-1) st1 else .ok 0 st1

/-- `rad_s`: degrees to radians. -/
def rad_s (F : MathFns) (fuel : Nat) (st : St) : Out ℚ :=
  match fuel with
  | 0 => .spin
  | fuel + 1 => (expression F fuel st).bind fun result st1 => .ok (result * F.pi / 180) st1

/-- `deg_s`: radians to degrees. -/
def deg_s (F : MathFns) (fuel : Nat) (st : St) : Out ℚ :=
  match fuel with
  | 0 => .spin
  | fuel + 1 => (expression F fuel st).bind fun result st1 => .ok (result * 180 / F.pi) st1

/-- `fact_s`: factorial of a nonnegative integral argument, via the
`int16_t`-indexed accumulation loop `factLoop`. -/
def fact_s (F : MathFns) (fuel : Nat) (st : St) : Out ℚ :=
  match fuel with
  | 0 => .spin
  | fuel + 1 =>
    (expression F fuel st).bind fun fact st1 =>
      if fact ≥ 0 ∧ fact = cfloor fact then
        match factLoop fact fuel 1 1 with
        | some result => .ok result st1
        | none => .spin
      else .err .undefinedFunction

/-- `log_s`: `log(base, value)`.  The comma count is taken over the whole
remaining input string `*str`; more than one comma is invalid input.  The
result is `log(value) / log(base)` for `base > 0`, `base != 1`,
`value > 0`. -/
def log_s (F : MathFns) (fuel : Nat) (st : St) : Out ℚ :=
  match fuel with
  | 0 => .spin
  | fuel + 1 =>
    let comma_count := st.rest.count ','
    if comma_count > 1 then .err .invalidInput
    else
      (expression F fuel st).bind fun base st1 =>
        (expression F fuel (getToken st1)).bind fun value st2 =>
          if base > 0 ∧ base ≠ 1 ∧ value > 0 then .ok (F.log value / F.log base) st2
          else .err .undefinedFunction

/-- `log10_s`: decimal logarithm, defined for positive arguments. -/
def log10_s (F : MathFns) (fuel : Nat) (st : St) : Out ℚ :=
  match fuel with
  | 0 => .spin
  | fuel + 1 =>
    (expression F fuel st).bind fun result st1 =>
      if result > 0 then .ok (F.log10 result) st1 else .err .undefinedFunction

/-- `ln_s`: natural logarithm, defined for positive arguments. -/
def ln_s (F : MathFns) (fuel : Nat) (st : St) : Out ℚ :=
  match fuel with
  | 0 => .spin
  | fuel + 1 =>
    (expression F fuel st).bind fun result st1 =>
      if result > 0 then .ok (F.log result) st1 else .err .undefinedFunction

/-- `min_s`: fold comma-separated sub-expressions with minimum. -/
def min_s (F : MathFns) (fuel : Nat) (st : St) : Out ℚ :=
  match fuel with
  | 0 => .spin
  | fuel + 1 => (expression F fuel st).bind fun result st1 => minLoop F fuel result st1

/-- The `while (*token == ',')` loop of `min_s`. -/
def minLoop (F : MathFns) (fuel : Nat) (result : ℚ) (st : St) : Out ℚ :=
  match fuel with
  | 0 => .spin
  | fuel + 1 =>
    if st.tok = ',' then
      (expression F fuel (getToken st)).bind fun next st1 =>
        minLoop F fuel (if next < result then next else result) st1
    else .ok result st

/-- `max_s`: fold comma-separated sub-expressions with maximum. -/
def max_s (F : MathFns) (fuel : Nat) (st : St) : Out ℚ :=
  match fuel with
  | 0 => .spin
  | fuel + 1 => (expression F fuel st).bind fun result st1 => maxLoop F fuel result st1

/-- The `while (*token == ',')` loop of `max_s`. -/
def maxLoop (F : MathFns) (fuel : Nat) (result : ℚ) (st : St) : Out ℚ :=
  match fuel with
  | 0 => .spin
  | fuel + 1 =>
    if st.tok = ',' then
      (expression F fuel (getToken st)).bind fun next st1 =>
        maxLoop F fuel (if next > result then next else result) st1
    else .ok result st

end

/-- Observable outcome of evaluating one input line. -/
inductive LineRes where
  | value (v : ℚ)
  | failure (e : error_code_t)
  | hung
deriving DecidableEq, Repr

/-- The per-line evaluation in `main`: fetch the first token from the line
and evaluate `expression`, observing only the value or the error. -/
def runLine (F : MathFns) (fuel : Nat) (input : List Char) : LineRes :=
  match expression F fuel (getToken ⟨input, '\x00'⟩) with
  | .ok v _ => .value v
  | .err e => .failure e
  | .spin => .hung

/-- A concrete, computable instantiation of the transcendental primitives,
used to evaluate the embedding on concrete inputs.  Where a claim needs a
genuine fact about a library function (such as `sqrt 4 = 2`), the claim's
theorem takes that fact as a hypothesis and this instantiation witnesses
it. -/
def qFns : MathFns where
  sqrt := fun x => if x = 4 then 2 else 0
  sin := fun x => x
  cos := fun x => x + 1
  tan := fun x => x + 2
  asin := fun x => x
  acos := fun x => x
  atan := fun x => x
  sinh := fun x => x
  cosh := fun x => x
  tanh := fun x => x
  asinh := fun x => x
  acosh := fun x => x
  atanh := fun x => x
  exp := fun x => x
  log := fun x => if x = 8 then 3 else if x = 2 then 1 else 0
  log10 := fun x => x
  pow := fun a b => if b.den = 1 ∧ 0 ≤ b.num then a ^ b.num.toNat else 0
  fmod := fun _ _ => 0
  pi := 0

lemma wrap16_bounds (n : Int) : -32768 ≤ wrap16 n ∧ wrap16 n ≤ 32767 := by
  unfold wrap16
  have h1 : 0 ≤ (n + 32768) % 65536 := Int.emod_nonneg _ (by norm_num)
  have h2 : (n + 32768) % 65536 < 65536 := Int.emod_lt_of_pos _ (by norm_num)
  omega

lemma wrap16_id (n : Int) (h1 : -32768 ≤ n) (h2 : n ≤ 32767) : wrap16 n = n := by
  unfold wrap16
  rw [Int.emod_eq_of_lt (by omega) (by omega)]
  omega

lemma factLoop_stuck (fuel : Nat) : ∀ (i : Int) (acc : ℚ), -32768 ≤ i → i ≤ 32767 →
    factLoop 32767 fuel i acc = none := by
  induction fuel with
  | zero => intro i acc _ _; rfl
  | succ fuel ih =>
    intro i acc h1 h2
    have hle : (i : ℚ) ≤ 32767 := by exact_mod_cast h2
    rw [factLoop, if_pos hle]
    exact ih _ _ (wrap16_bounds _).1 (wrap16_bounds _).2

lemma upProd_succ_right (k : ℕ) : ∀ i : Int, upProd i (k + 1) = upProd i k * ((i + k : Int) : ℚ) := by
  induction k with
  | zero => intro i; simp [upProd]
  | succ k ih =>
    intro i
    rw [upProd]
    rw [ih (i + 1)]
    rw [upProd]
    push_cast
    ring

lemma upProd_one_factorial (n : ℕ) : upProd 1 n = (Nat.factorial n : ℚ) := by
  induction n with
  | zero => simp [upProd, Nat.factorial]
  | succ n ih =>
    rw [upProd_succ_right, ih, Nat.factorial_succ]
    push_cast
    ring

lemma factLoop_run (n : ℕ) (hn : n ≤ 32766) :
    ∀ (k : ℕ) (i : Int) (acc : ℚ), 1 ≤ i → i + k = n + 1 →
      factLoop (n : ℚ) (k + 1) i acc = some (acc * upProd i k) := by
  intro k
  induction k with
  | zero =>
    intro i acc h1 hsum
    have hi : i = (n : Int) + 1 := by omega
    subst hi
    have hnot : ¬ ((((n : Int) + 1 : Int) : ℚ) ≤ (n : ℚ)) := by push_cast; linarith
    rw [factLoop, if_neg hnot]
    simp [upProd]
  | succ k ih =>
    intro i acc h1 hsum
    have hile : i ≤ (n : Int) := by omega
    have hle : (i : ℚ) ≤ (n : ℚ) := by exact_mod_cast hile
    rw [factLoop, if_pos hle, wrap16_id (i + 1) (by omega) (by omega),
      ih (i + 1) (acc * (i : ℚ)) (by omega) (by omega)]
    congr 1
    rw [upProd]
    ring

lemma log28_eval (F : MathFns) (h8 : F.log 8 = 3 * F.log 2) (h2 : F.log 2 ≠ 0) :
    runLine F 100 "log(2,8)\n".data = .value 3 := by
  have key : runLine F 100 "log(2,8)\n".data = .value (1 * (F.log 8 / F.log 2)) := by
    with_unfolding_all rfl
  rw [key, h8, one_mul, mul_div_assoc, div_self h2, mul_one]

/-- C1: the claim says `tan(e)` and `tg(e)` are identical and matching is
case-insensitive.  Case-insensitivity holds (`SIN(0)` = `sin(0)`), but the
dispatch `switch` sends alias "tg" (table index 6) to `ctan_s`, the
cotangent routine, while "tan" (index 5) goes to `tan_s`; with the marker
primitives `qFns` the two calls produce different values, refuting the
first half of the claim on the code. -/
theorem C1_tan_tg_dispatch :
    (∀ (F : MathFns) (fuel : Nat) (st : St),
        call_function F (fuel + 1) "tan".data st = tan_s F fuel st
      ∧ call_function F (fuel + 1) "tg".data st = ctan_s F fuel st)
  ∧ runLine qFns 100 "tan(1)\n".data = .value 3
  ∧ runLine qFns 100 "tg(1)\n".data = .value (1/3)
  ∧ LineRes.value (3 : ℚ) ≠ LineRes.value (1/3)
  ∧ runLine qFns 100 "SIN(0)\n".data = runLine qFns 100 "sin(0)\n".data :=
  ⟨fun F fuel st => ⟨by with_unfolding_all rfl, by with_unfolding_all rfl⟩,
    by with_unfolding_all decide, by with_unfolding_all decide,
    by with_unfolding_all decide, by with_unfolding_all decide⟩

/-- C2 (amended): the `fact_s` loop terminates, with value `n!`, for every
nonnegative integral argument `n ≤ 32766`; beyond that the `int16_t`
counter wraps around and the guard never fails (see the C2
counterexample). -/
theorem C2_fact_loop_termination (n : ℕ) (hn : n ≤ 32766) :
    factLoop (n : ℚ) (n + 1) 1 1 = some ((Nat.factorial n : ℕ) : ℚ) := by
  have h := factLoop_run n hn n 1 1 (by norm_num) (by omega)
  rw [h, one_mul, upProd_one_factorial]

/-- C2 witness: the amended theorem applied at `n = 5` gives `5! = 120`
within fuel 6. -/
theorem C2_fact_loop_termination_witness :
    factLoop ((5 : ℕ) : ℚ) (5 + 1) 1 1 = some ((Nat.factorial 5 : ℕ) : ℚ)
  ∧ ((Nat.factorial 5 : ℕ) : ℚ) = 120 :=
  ⟨C2_fact_loop_termination 5 (by norm_num), by with_unfolding_all decide⟩

/-- C2 counterexample: for the supplied argument value 32767 (nonnegative
and integral, so the domain check passes) the `int16_t` loop counter can
never exceed the argument and the accumulation loop never terminates,
refuting termination "for every supplied argument value". -/
theorem C2_fact_nontermination : ¬ factLoopTerminates 32767 := by
  rintro ⟨fuel, r, hr⟩
  rw [factLoop_stuck fuel 1 1 (by norm_num) (by norm_num)] at hr
  exact Option.noConfusion hr

/-- C3: the claim describes `ctan_s` (cotangent as `1/tan`, undefined when
`sin` is 0), but the dispatch `switch` sends all five cotangent aliases
(table indices 7-11) to `asin_s` instead; concretely `cot(2)` signals
UndefinedFunction through the arcsine domain check even though
`sin 2 ≠ 0`. -/
theorem C3_cotan_dispatch :
    (∀ (F : MathFns) (fuel : Nat) (st : St),
        call_function F (fuel + 1) "ctan".data st = asin_s F fuel st
      ∧ call_function F (fuel + 1) "ctg".data st = asin_s F fuel st
      ∧ call_function F (fuel + 1) "cotan".data st = asin_s F fuel st
      ∧ call_function F (fuel + 1) "cot".data st = asin_s F fuel st
      ∧ call_function F (fuel + 1) "cotg".data st = asin_s F fuel st)
  ∧ runLine qFns 100 "cot(2)\n".data = .failure .undefinedFunction
  ∧ qFns.sin 2 ≠ 0 :=
  ⟨fun F fuel st =>
    ⟨by with_unfolding_all rfl, by with_unfolding_all rfl, by with_unfolding_all rfl,
      by with_unfolding_all rfl, by with_unfolding_all rfl⟩,
    by with_unfolding_all decide, by with_unfolding_all decide⟩

/-- C4: `log(2,8)` evaluates to 3 given the logarithm identities
`log 8 = 3 log 2` and `log 2 ≠ 0`; `log(1,8)` and `log(-1,8)` signal
UndefinedFunction; two commas inside `log(...)` signal InvalidInput. -/
theorem C4_log_eval (F : MathFns) (h8 : F.log 8 = 3 * F.log 2) (h2 : F.log 2 ≠ 0) :
    runLine F 100 "log(2,8)\n".data = .value 3
  ∧ runLine F 100 "log(1,8)\n".data = .failure .undefinedFunction
  ∧ runLine F 100 "log(-1,8)\n".data = .failure .undefinedFunction
  ∧ runLine F 100 "log(2,8,3)\n".data = .failure .invalidInput :=
  ⟨log28_eval F h8 h2, by with_unfolding_all rfl, by with_unfolding_all rfl,
    by with_unfolding_all rfl⟩

/-- C4 witness: the concrete primitives `qFns` satisfy both logarithm
hypotheses, and the theorem evaluates `log(2,8)` to 3 with them. -/
theorem C4_log_eval_witness :
    qFns.log 8 = 3 * qFns.log 2
  ∧ qFns.log 2 ≠ 0
  ∧ runLine qFns 100 "log(2,8)\n".data = .value 3 :=
  ⟨by with_unfolding_all decide, by with_unfolding_all decide,
    (C4_log_eval qFns (by with_unfolding_all decide) (by with_unfolding_all decide)).1⟩

/-- C5: `sqrt_s` signals UndefinedFunction exactly when its argument
evaluates below 0 and otherwise returns the square root of the argument;
in particular `sqrt(4)` yields 2 (given `sqrt 4 = 2`) and `sqrt(-1)`
signals UndefinedFunction. -/
theorem C5_sqrt_domain :
    (∀ (F : MathFns) (fuel : Nat) (st st1 : St) (x : ℚ),
        expression F fuel st = .ok x st1 →
          (x < 0 → sqrt_s F (fuel + 1) st = .err .undefinedFunction)
        ∧ (0 ≤ x → sqrt_s F (fuel + 1) st = .ok (F.sqrt x) st1))
  ∧ (∀ F : MathFns, F.sqrt 4 = 2 → runLine F 100 "sqrt(4)\n".data = .value 2)
  ∧ (∀ F : MathFns, runLine F 100 "sqrt(-1)\n".data = .failure .undefinedFunction) := by
  refine ⟨fun F fuel st st1 x hx => ⟨fun hneg => ?_, fun hpos => ?_⟩, fun F h4 => ?_, fun F => ?_⟩
  · rw [sqrt_s, hx]
    simp [Out.bind, not_le.mpr hneg]
  · rw [sqrt_s, hx]
    simp [Out.bind, hpos]
  · have key : runLine F 100 "sqrt(4)\n".data = .value (1 * F.sqrt 4) := by
      with_unfolding_all rfl
    rw [key, h4]
    with_unfolding_all rfl
  · with_unfolding_all rfl

/-- C5 witness: the domain branches of the theorem applied at a concrete
parse of `-1`, and both concrete conjuncts at `qFns`. -/
theorem C5_sqrt_domain_witness :
    expression qFns 50 ⟨['1'], '-'⟩ = .ok (-1) ⟨[], '\x00'⟩
  ∧ sqrt_s qFns (50 + 1) ⟨['1'], '-'⟩ = .err .undefinedFunction
  ∧ runLine qFns 100 "sqrt(4)\n".data = .value 2
  ∧ runLine qFns 100 "sqrt(-1)\n".data = .failure .undefinedFunction := by
  have hx : expression qFns 50 ⟨['1'], '-'⟩ = .ok (-1) ⟨[], '\x00'⟩ := by
    with_unfolding_all decide
  exact ⟨hx, (C5_sqrt_domain.1 qFns 50 _ _ (-1) hx).1 (by norm_num),
    C5_sqrt_domain.2.1 qFns (by with_unfolding_all decide), C5_sqrt_domain.2.2 qFns⟩

/-- C6: the `^` operator is folded left-to-right at the `term` level, so
`2^3^2` evaluates as `pow (pow 2 3) 2 = 64` (given the power facts at
these points), not 512. -/
theorem C6_power_left_assoc (F : MathFns) (h1 : F.pow 2 3 = 8) (h2 : F.pow 8 2 = 64) :
    runLine F 100 "2^3^2\n".data = .value 64
  ∧ runLine F 100 "2^3^2\n".data ≠ .value 512 := by
  have key : runLine F 100 "2^3^2\n".data = .value (F.pow (F.pow 2 3) 2) := by
    with_unfolding_all rfl
  rw [key, h1, h2]
  exact ⟨rfl, by with_unfolding_all decide⟩

/-- C6 witness: the concrete primitives `qFns` satisfy both power facts and
the theorem evaluates `2^3^2` to 64 with them. -/
theorem C6_power_left_assoc_witness :
    qFns.pow 2 3 = 8
  ∧ qFns.pow 8 2 = 64
  ∧ runLine qFns 100 "2^3^2\n".data = .value 64 :=
  ⟨by with_unfolding_all decide, by with_unfolding_all decide,
    (C6_power_left_assoc qFns (by with_unfolding_all decide) (by with_unfolding_all decide)).1⟩

/-- C7: the validator rejects the seven listed malformed inputs (each given
as the line read by `fgets`, terminated by a newline). -/
theorem C7_validator_rejects :
    is_valid_input "*5\n".data = false
  ∧ is_valid_input "5+\n".data = false
  ∧ is_valid_input "5..5\n".data = false
  ∧ is_valid_input "5  5\n".data = false
  ∧ is_valid_input "foo(5)\n".data = false
  ∧ is_valid_input "(5\n".data = false
  ∧ is_valid_input "5(5)\n".data = false :=
  ⟨by with_unfolding_all decide, by with_unfolding_all decide, by with_unfolding_all decide,
    by with_unfolding_all decide, by with_unfolding_all decide, by with_unfolding_all decide,
    by with_unfolding_all decide⟩

/-- C8: the validator accepts the empty line and the listed well-formed
expressions, and `fact(5)` evaluates to 120 (for any transcendental
primitives, since factorial is computed concretely). -/
theorem C8_validator_accepts :
    is_valid_input "\n".data = true
  ∧ is_valid_input "3.5*(2-1)\n".data = true
  ∧ is_valid_input "sin(0)\n".data = true
  ∧ is_valid_input "fact(5)\n".data = true
  ∧ (∀ F : MathFns, runLine F 100 "fact(5)\n".data = .value 120) :=
  ⟨by with_unfolding_all decide, by with_unfolding_all decide, by with_unfolding_all decide,
    by with_unfolding_all decide, fun F => by with_unfolding_all rfl⟩

/-- C9: the comma guard of `log_s` counts commas in the whole remaining
input, so any input with two commas after `log`'s first argument token
signals InvalidInput, even when every call is individually well-formed:
`log(2,8)+min(1,2)` passes the validator and both calls evaluate fine in
isolation, yet the combined line fails. -/
theorem C9_log_comma_scope :
    (∀ (F : MathFns) (fuel : Nat) (st : St), 1 < st.rest.count ',' →
        log_s F (fuel + 1) st = .err .invalidInput)
  ∧ (∀ F : MathFns, runLine F 100 "log(2,8)+min(1,2)\n".data = .failure .invalidInput)
  ∧ is_valid_input "log(2,8)+min(1,2)\n".data = true
  ∧ (∀ F : MathFns, runLine F 100 "min(1,2)\n".data = .value 1)
  ∧ (∀ F : MathFns, F.log 8 = 3 * F.log 2 → F.log 2 ≠ 0 →
        runLine F 100 "log(2,8)\n".data = .value 3) := by
  refine ⟨fun F fuel st h => ?_, fun F => by with_unfolding_all rfl,
    by with_unfolding_all decide, fun F => by with_unfolding_all rfl,
    fun F h8 h2 => log28_eval F h8 h2⟩
  rw [log_s]
  simp [h]

/-- C9 witness: the general comma lemma applied to a concrete state whose
remaining input holds two commas, plus the hypothesis-laden conjunct at
`qFns`. -/
theorem C9_log_comma_scope_witness :
    1 < List.count ',' [',', ',']
  ∧ log_s qFns (0 + 1) ⟨[',', ','], '2'⟩ = .err .invalidInput
  ∧ runLine qFns 100 "log(2,8)\n".data = .value 3 :=
  ⟨by with_unfolding_all decide,
    C9_log_comma_scope.1 qFns 0 ⟨[',', ','], '2'⟩ (by with_unfolding_all decide),
    C9_log_comma_scope.2.2.2.2 qFns (by with_unfolding_all decide) (by with_unfolding_all decide)⟩

/-- C10: `factor` entered on a token that is none of `-`, `(`, digit,
point, or letter consumes nothing and returns `sign * 0` with no error;
consequently `min(5,,5)` passes the validator and evaluates to 0, the
factor after the second comma contributing 0. -/
theorem C10_factor_default_zero :
    (∀ (F : MathFns) (fuel : Nat) (st : St),
        st.tok ≠ '-' → st.tok ≠ '(' → ¬st.tok.isDigit → st.tok ≠ '.' → ¬st.tok.isAlpha →
        factor F (fuel + 1) st = .ok 0 st)
  ∧ is_valid_input "min(5,,5)\n".data = true
  ∧ (∀ F : MathFns, runLine F 100 "min(5,,5)\n".data = .value 0) := by
  refine ⟨fun F fuel st h1 h2 h3 h4 h5 => ?_, by with_unfolding_all decide,
    fun F => by with_unfolding_all rfl⟩
  simp [factor, h1, h2, h3, h4, h5]

/-- C10 witness: the factor lemma applied at the comma token, with the
side conditions checked by computation. -/
theorem C10_factor_default_zero_witness :
    factor qFns (0 + 1) ⟨[], ','⟩ = .ok 0 ⟨[], ','⟩
  ∧ runLine qFns 100 "min(5,,5)\n".data = .value 0 :=
  ⟨C10_factor_default_zero.1 qFns 0 ⟨[], ','⟩ (by with_unfolding_all decide)
      (by with_unfolding_all decide) (by with_unfolding_all decide)
      (by with_unfolding_all decide) (by with_unfolding_all decide),
    C10_factor_default_zero.2.2 qFns⟩

end Calculator
